import Mathlib

/-!
Verification development for the `openeo_driver.jobregistry` client
(`ElasticJobRegistry`): credentials handling, OIDC client-credentials token
caching, job creation, partial-update payloads, bounded retry, and the
error-suppression scope.  The registry client itself is modelled from the
specification (its implementation module is not part of the sources at hand;
the repository's test suite `tests/test_jobregistry.py` pins the concrete
formats and constants used below).
-/

/-- Minimal JSON-value model: the payloads the claims inspect only need
string values and the explicit `null` marker ("unset"). -/
inductive JVal where
  | null : JVal
  | str : String → JVal
deriving DecidableEq, Repr

/-- Modelled from the spec: the typed error taxonomy of the client
(`EjrError` generic failure, `EjrHttpError` its specialization carrying the
HTTP status code and reason of a non-success response). -/
inductive EjrException where
  | ejrError (msg : String) : EjrException
  | ejrHttpError (status : Nat) (reason : String) : EjrException
deriving DecidableEq, Repr

/-- Both constructors are `EjrError`s (`EjrHttpError` is-a `EjrError`). -/
def EjrException.isEjrHttpError : EjrException → Bool
  | .ejrHttpError _ _ => true
  | .ejrError _ => false

/-- Whether a computation in the `Except` error monad raised. -/
def raisesEjr {α : Type} : Except EjrException α → Bool
  | .error _ => true
  | .ok _ => false

/-- Modelled from the spec: `ElasticJobRegistryCredentials`, the immutable
issuer / client-id / client-secret triple. -/
structure ElasticJobRegistryCredentials where
  oidc_issuer : String
  client_id : String
  client_secret : String
deriving DecidableEq, Repr

/-- Modelled from the spec: the textual representation of credentials
redacts the secret with the fixed placeholder while issuer and client id
remain visible (format pinned by `test_repr`). -/
def ElasticJobRegistryCredentials.reprStr (c : ElasticJobRegistryCredentials) : String :=
  "ElasticJobRegistryCredentials(oidc_issuer='" ++ c.oidc_issuer ++
    "', client_id='" ++ c.client_id ++ "', client_secret='***')"

/-- Environment variable name for the OIDC issuer. -/
def EJR_ENV_ISSUER : String := "OPENEO_EJR_OIDC_ISSUER"

/-- Environment variable name for the OIDC client id. -/
def EJR_ENV_CLIENT_ID : String := "OPENEO_EJR_OIDC_CLIENT_ID"

/-- Environment variable name for the OIDC client secret. -/
def EJR_ENV_CLIENT_SECRET : String := "OPENEO_EJR_OIDC_CLIENT_SECRET"

/-- Modelled from the spec: `ElasticJobRegistryCredentials.get` resolves the
issuer from the explicit argument (falling back to the environment), and the
client id / secret from the configuration mapping when one is given, else
from the well-known environment variables; it fails with `EjrError` when any
required field resolves to nothing (empty counts as missing). -/
def ElasticJobRegistryCredentials.get (oidc_issuer : Option String)
    (config : Option (List (String × String))) (env : List (String × String)) :
    Except EjrException ElasticJobRegistryCredentials :=
  let issuer : Option String :=
    match oidc_issuer with
    | some i => some i
    | none => env.lookup EJR_ENV_ISSUER
  let cid : Option String :=
    match config with
    | some cfg => cfg.lookup "client_id"
    | none => env.lookup EJR_ENV_CLIENT_ID
  let secret : Option String :=
    match config with
    | some cfg => cfg.lookup "client_secret"
    | none => env.lookup EJR_ENV_CLIENT_SECRET
  match issuer, cid, secret with
  | some i, some c, some s =>
    if i = "" ∨ c = "" ∨ s = "" then
      .error (.ejrError "Failed to obtain complete ElasticJobRegistry credentials")
    else
      .ok ⟨i, c, s⟩
  | _, _, _ =>
    .error (.ejrError "Failed to obtain complete ElasticJobRegistry credentials")

/-- A cached bearer token together with its (locally computed) expiry. -/
structure CachedToken where
  access_token : String
  expires_at : Nat
deriving DecidableEq, Repr

/-- Modelled from the spec: the token cache's `get_token`.  Time is in
seconds; `issue t` is the issuer's token endpoint at time `t`, returning the
fresh access token and its lifetime.  If a cached, non-expired token exists
it is returned without any token request (the expiry check is
`now >= expires_at`, so a token is never used at or after its nominal
expiry); otherwise one token request is performed and the token is stored
with `expires_at = now + lifetime`.  Returns the token to use, the new cache
entry, and the number of token requests performed (0 or 1). -/
def get_token (now : Nat) (cache : Option CachedToken)
    (issue : Nat → String × Nat) : String × Option CachedToken × Nat :=
  match cache with
  | some t =>
    if now < t.expires_at then
      (t.access_token, some t, 0)
    else
      let fresh := issue now
      (fresh.1, some ⟨fresh.1, now + fresh.2⟩, 1)
  | none =>
    let fresh := issue now
    (fresh.1, some ⟨fresh.1, now + fresh.2⟩, 1)

/-- An outbound HTTP call of the client: method, path and the optional
Authorization header (absent means no header at all). -/
structure ApiCall where
  method : String
  path : String
  authHeader : Option String
  body : List (String × JVal)
deriving DecidableEq, Repr

/-- Trace of one client operation: its result, the token cache afterwards,
how many token requests were performed, and the API call that was sent. -/
structure OpTrace (α : Type) where
  result : α
  cache : Option CachedToken
  tokenRequests : Nat
  call : ApiCall
deriving DecidableEq

/-- Modelled from the spec: `list_user_jobs(user_id)` — an authenticated
search query (`POST /jobs/search`), returning the sequence of job records
exactly as returned by the service.  `server` is the remote registry's
response as a function of the request. -/
def list_user_jobs (user_id : String) (now : Nat) (cache : Option CachedToken)
    (issue : Nat → String × Nat) (server : ApiCall → JVal) : OpTrace JVal :=
  let auth := get_token now cache issue
  let call : ApiCall :=
    ⟨"POST", "/jobs/search", some ("Bearer " ++ auth.1), [("user_id", .str user_id)]⟩
  ⟨server call, auth.2.1, auth.2.2, call⟩

/-- Modelled from the spec: `health_check(use_auth)` — GET the health
endpoint; when `use_auth` is false the Authorization header is omitted
entirely and no token is obtained; the raw health payload is returned
unmodified. -/
def health_check (use_auth : Bool) (now : Nat) (cache : Option CachedToken)
    (issue : Nat → String × Nat) (server : ApiCall → JVal) : OpTrace JVal :=
  if use_auth then
    let auth := get_token now cache issue
    let call : ApiCall := ⟨"GET", "/health", some ("Bearer " ++ auth.1), []⟩
    ⟨server call, auth.2.1, auth.2.2, call⟩
  else
    let call : ApiCall := ⟨"GET", "/health", none, []⟩
    ⟨server call, cache, 0, call⟩

/-- Decimal digit character for `n % 10`. -/
def digitChar (n : Nat) : Char := Char.ofNat (48 + n % 10)

/-- Zero-padded two-digit decimal rendering (for `n < 100`). -/
def pad2 (n : Nat) : String := String.mk [digitChar (n / 10), digitChar n]

/-- Zero-padded four-digit decimal rendering (for `n < 10000`). -/
def pad4 (n : Nat) : String :=
  String.mk [digitChar (n / 1000), digitChar (n / 100), digitChar (n / 10), digitChar n]

/-- Gregorian civil date from days since the Unix epoch (1970-01-01),
via the standard era decomposition. -/
def civilFromDays (days : Nat) : Nat × Nat × Nat :=
  let z := days + 719468
  let era := z / 146097
  let doe := z % 146097
  let yoe := (doe - doe / 1460 + doe / 36524 - doe / 146096) / 365
  let doy := doe - (365 * yoe + yoe / 4 - yoe / 100)
  let mp := (5 * doy + 2) / 153
  let d := doy - (153 * mp + 2) / 5 + 1
  let m := if mp < 10 then mp + 3 else mp - 9
  (yoe + era * 400 + (if m ≤ 2 then 1 else 0), m, d)

/-- Modelled from the spec: the canonical timestamp format of the client —
UTC, ISO-8601 with a literal `Z` suffix and second precision
(`YYYY-MM-DDTHH:MM:SSZ`), applied to a time in seconds since the epoch. -/
def rfc3339_datetime (t : Nat) : String :=
  let ymd := civilFromDays (t / 86400)
  let sec := t % 86400
  pad4 ymd.1 ++ "-" ++ pad2 ymd.2.1 ++ "-" ++ pad2 ymd.2.2 ++ "T" ++
    pad2 (sec / 3600) ++ ":" ++ pad2 (sec % 3600 / 60) ++ ":" ++ pad2 (sec % 60) ++ "Z"

/-- Lower-case hexadecimal digit character for a value below 16
(`0`-`9` then `a`-`f`). -/
def hexChar (n : Fin 16) : Char :=
  if n.val < 10 then Char.ofNat (48 + n.val) else Char.ofNat (87 + n.val)

/-- Modelled from the spec: client-side job-id generation — the opaque token
`j-` followed by the random hexadecimal suffix (the randomness source is the
explicit `rand` argument). -/
def generate_job_id (rand : List (Fin 16)) : String :=
  "j-" ++ String.mk (rand.map hexChar)

/-- Whether a character is a decimal digit (`0`-`9`). -/
def isDigitChar (c : Char) : Bool := ('0' ≤ c) && (c ≤ '9')

/-- Whether a character is a lower-case hexadecimal digit (`0`-`9`, `a`-`f`). -/
def isLowerHexChar (c : Char) : Bool := isDigitChar c || (('a' ≤ c) && (c ≤ 'f'))

/-- Decides the regular expression `j-[0-9a-f]+`, anchored at both ends. -/
def matches_job_id_pattern (s : String) : Bool :=
  match s.data with
  | 'j' :: '-' :: rest => !rest.isEmpty && rest.all isLowerHexChar
  | _ => false

/-- Decides the timestamp shape `YYYY-MM-DDTHH:MM:SSZ`: exactly twenty
characters, digits in the date/time positions and the literal separators
`-`, `T`, `:` and the trailing `Z`. -/
def matches_ts_pattern (s : String) : Bool :=
  match s.data with
  | [y1, y2, y3, y4, s1, m1, m2, s2, d1, d2, t, h1, h2, c1, i1, i2, c2, e1, e2, z] =>
    [y1, y2, y3, y4, m1, m2, d1, d2, h1, h2, i1, i2, e1, e2].all isDigitChar &&
      s1 = '-' && s2 = '-' && t = 'T' && c1 = ':' && c2 = ':' && z = 'Z'
  | _ => false

/-- The substring relation on strings, via their character lists. -/
def strContains (hay needle : String) : Prop :=
  ∃ pre post : List Char, hay.data = pre ++ needle.data ++ post

/-- A job record as submitted to (and echoed by) `POST /jobs`. -/
structure JobEntry where
  backend_id : String
  job_id : String
  user_id : String
  process : String
  created : String
  updated : String
  status : String
  job_options : JVal
deriving DecidableEq, Repr

/-- The status the registry is expected to answer to a successful job
creation (pinned by `test_create_job` / `test_create_job_with_error`:
any other status — including the 2xx status 204 — raises). -/
def EJR_CREATE_EXPECTED_STATUS : Nat := 201

/-- Whether an HTTP status code is a 2xx success status. -/
def is2xx (status : Nat) : Bool := (200 ≤ status) && (status < 300)

/-- An HTTP response of the remote registry: status code, reason phrase
and JSON body. -/
structure HttpResponse where
  status : Nat
  reason : String
  body : JVal
deriving DecidableEq, Repr

/-- Modelled from the spec: `create_job(process, user_id, job_options?)` —
generates a fresh `job_id`, sets `created = updated = now` (canonical
format) and `status = "created"`, and submits the full record with a single
`POST /jobs` (no retry); the server is expected to answer the creation
status, any other response raises `EjrHttpError`.  Returns the outcome
together with the number of POST attempts performed. -/
def create_job (backend_id : String) (rand : List (Fin 16)) (now : Nat)
    (process : String) (user_id : String) (job_options : JVal)
    (response : HttpResponse) : Except EjrException JobEntry × Nat :=
  let job : JobEntry :=
    { backend_id := backend_id
      job_id := generate_job_id rand
      user_id := user_id
      process := process
      created := rfc3339_datetime now
      updated := rfc3339_datetime now
      status := "created"
      job_options := job_options }
  if response.status = EJR_CREATE_EXPECTED_STATUS then
    (.ok job, 1)
  else
    (.error (.ejrHttpError response.status response.reason), 1)

/-- Maximum number of attempts of the retry policy for partial updates. -/
def EJR_RETRY_MAX_ATTEMPTS : Nat := 2

/-- Trace of a retried partial update: its outcome, the PATCH requests
performed (in order), and the number of inter-attempt delay sleeps. -/
structure UpdateTrace where
  result : Except EjrException JVal
  requests : List ApiCall
  sleeps : Nat
deriving Repr

/-- Modelled from the spec: the bounded retry loop around one logical
mutating call.  `call` is the request sent at every attempt; `resps i` is
the registry's response to the i-th attempt (starting at `idx`).  Attempt
the call; on success return immediately with no further attempts and no
extra delay; on an HTTP error response, if attempts remain, sleep the fixed
delay and retry; if attempts are exhausted, raise `EjrHttpError` carrying
the last response's status code and reason. -/
def with_retry (call : ApiCall) (resps : Nat → HttpResponse) : Nat → Nat → UpdateTrace
  | _, 0 => ⟨.error (.ejrError "no attempts permitted"), [], 0⟩
  | idx, 1 =>
    let r := resps idx
    if is2xx r.status then ⟨.ok r.body, [call], 0⟩
    else ⟨.error (.ejrHttpError r.status r.reason), [call], 0⟩
  | idx, n + 2 =>
    let r := resps idx
    if is2xx r.status then ⟨.ok r.body, [call], 0⟩
    else
      let t := with_retry call resps (idx + 1) (n + 1)
      ⟨t.result, call :: t.requests, t.sleeps + 1⟩

/-- Modelled from the spec: a partial update (`PATCH /jobs/{job_id}`) of the
given payload with the given bearer token, wrapped in the retry policy with
the fixed maximum number of attempts.  Every attempt sends the same
payload. -/
def update_job (job_id : String) (payload : List (String × JVal)) (token : String)
    (resps : Nat → HttpResponse) : UpdateTrace :=
  with_retry ⟨"PATCH", "/jobs/" ++ job_id, some ("Bearer " ++ token), payload⟩
    resps 0 EJR_RETRY_MAX_ATTEMPTS

/-- Modelled from the spec: the payload of `set_application_id(job_id, x)` —
a partial update setting `application_id` only. -/
def set_application_id (application_id : String) : List (String × JVal) :=
  [("application_id", .str application_id)]

/-- Modelled from the spec: the payload of
`set_status(job_id, status, updated?, started?, finished?)` — always
includes `status` and `updated` (`updated` defaulting to now); `started` and
`finished` are included only when explicitly supplied, each normalized to
the canonical timestamp format; unsupplied keys are absent, not null. -/
def set_status_payload (status : String) (now : Nat)
    (updated started finished : Option Nat) : List (String × JVal) :=
  [("status", .str status), ("updated", .str (rfc3339_datetime (updated.getD now)))] ++
    (match started with
      | some t => [("started", .str (rfc3339_datetime t))]
      | none => []) ++
    (match finished with
      | some t => [("finished", .str (rfc3339_datetime t))]
      | none => [])

/-- Modelled from the spec: the payload of `remove_dependencies(job_id)` —
a partial update explicitly clearing `dependencies` and `dependency_status`
with the null marker meaning "unset". -/
def remove_dependencies_payload : List (String × JVal) :=
  [("dependencies", .null), ("dependency_status", .null)]

/-- An exception at the error-suppression boundary: type name and message. -/
structure ExcInfo where
  typeName : String
  message : String
deriving DecidableEq, Repr

/-- A log record: logger name, numeric level, and message. -/
structure LogRecord where
  logger : String
  level : Nat
  msg : String
deriving DecidableEq, Repr

/-- The numeric warning level of the logging subsystem. -/
def LOG_WARNING : Nat := 30

/-- The logger name of the elastic job registry module. -/
def EJR_LOGGER_NAME : String := "openeo_driver.jobregistry.elastic"

/-- Modelled from the spec: `just_log_errors(context_label)` — executes a
block (a computation that either yields a value or raises); any exception is
caught, logged as one warning including the context label, the exception's
type name and its message (format pinned by `test_just_log_errors`), and
suppressed: the function returns normally in both cases.  Returns the
block's value (when it completed) and the emitted log records. -/
def just_log_errors {α : Type} (label : String) (body : Except ExcInfo α) :
    Option α × List LogRecord :=
  match body with
  | .ok a => (some a, [])
  | .error e =>
    (none,
      [⟨EJR_LOGGER_NAME, LOG_WARNING,
        "In context '" ++ label ++ "': caught " ++ e.typeName ++
          "('" ++ e.message ++ "')"⟩])

theorem isDigitChar_digitChar (n : Nat) : isDigitChar (digitChar n) = true := by
  unfold digitChar isDigitChar
  have h : n % 10 < 10 := Nat.mod_lt _ (by decide)
  generalize n % 10 = m at h ⊢
  interval_cases m <;> decide

theorem isLowerHexChar_hexChar : ∀ i : Fin 16, isLowerHexChar (hexChar i) = true := by
  decide

theorem matches_ts_pattern_rfc3339 (t : Nat) :
    matches_ts_pattern (rfc3339_datetime t) = true := by
  simp [matches_ts_pattern, rfc3339_datetime, pad4, pad2, String.data_append,
    isDigitChar_digitChar]

theorem matches_job_id_generate (rand : List (Fin 16)) (h : rand ≠ []) :
    matches_job_id_pattern (generate_job_id rand) = true := by
  cases rand with
  | nil => exact absurd rfl h
  | cons a l =>
    simp [generate_job_id, matches_job_id_pattern, String.data_append, List.all_map,
      Function.comp, isLowerHexChar_hexChar]

theorem with_retry_two (call : ApiCall) (resps : Nat → HttpResponse) (idx : Nat) :
    with_retry call resps idx 2 =
      (if is2xx (resps idx).status then ⟨.ok (resps idx).body, [call], 0⟩
       else
        ⟨(with_retry call resps (idx + 1) 1).result,
          call :: (with_retry call resps (idx + 1) 1).requests,
          (with_retry call resps (idx + 1) 1).sleeps + 1⟩) := rfl

theorem with_retry_one (call : ApiCall) (resps : Nat → HttpResponse) (idx : Nat) :
    with_retry call resps idx 1 =
      (if is2xx (resps idx).status then ⟨.ok (resps idx).body, [call], 0⟩
       else ⟨.error (.ejrHttpError (resps idx).status (resps idx).reason), [call], 0⟩) := rfl

/-- C5: `set_status` with no optional timestamp arguments sends a payload
with exactly the keys `status` and `updated` (`updated` being now); an
explicitly supplied `started` (resp. `finished`) additionally appears,
normalized to the canonical timestamp format, and unsupplied keys are
absent from the payload (omission, not null). -/
theorem set_status_payload_shape (status : String) (now t u u2 : Nat) :
    set_status_payload status now none none none =
      [("status", JVal.str status), ("updated", JVal.str (rfc3339_datetime now))] ∧
    set_status_payload status now none (some t) none =
      [("status", JVal.str status), ("updated", JVal.str (rfc3339_datetime now)),
        ("started", JVal.str (rfc3339_datetime t))] ∧
    set_status_payload status now none none (some t) =
      [("status", JVal.str status), ("updated", JVal.str (rfc3339_datetime now)),
        ("finished", JVal.str (rfc3339_datetime t))] ∧
    set_status_payload status now (some u) (some u2) none =
      [("status", JVal.str status), ("updated", JVal.str (rfc3339_datetime u)),
        ("started", JVal.str (rfc3339_datetime u2))] ∧
    (set_status_payload status now none none none).lookup "started" = none ∧
    (set_status_payload status now none none none).lookup "finished" = none := by
  refine ⟨rfl, rfl, rfl, rfl, ?_, ?_⟩ <;> simp [set_status_payload, List.lookup]

/-- C6: `remove_dependencies(job_id)` sends a PATCH whose payload is exactly
`{"dependencies": null, "dependency_status": null}` — both fields present
with the explicit null marker, and no other keys. -/
theorem remove_dependencies_sends_exact_nulls (job_id token : String)
    (resps : Nat → HttpResponse) (h : is2xx (resps 0).status = true) :
    (update_job job_id remove_dependencies_payload token resps).requests =
      [⟨"PATCH", "/jobs/" ++ job_id, some ("Bearer " ++ token),
        [("dependencies", JVal.null), ("dependency_status", JVal.null)]⟩] ∧
    remove_dependencies_payload.lookup "dependencies" = some JVal.null ∧
    remove_dependencies_payload.lookup "dependency_status" = some JVal.null ∧
    remove_dependencies_payload.length = 2 := by
  refine ⟨?_, by simp [remove_dependencies_payload, List.lookup],
    by simp [remove_dependencies_payload, List.lookup], rfl⟩
  simp [update_job, EJR_RETRY_MAX_ATTEMPTS, with_retry_two, h, remove_dependencies_payload]

/-- C7: every exception raised inside a `just_log_errors(label)` scope is
caught and suppressed (the scope completes normally), and exactly one
warning log record is emitted, containing the context label, the
exception's type name and its message. -/
theorem just_log_errors_suppresses_and_logs (label : String) (e : ExcInfo) :
    (∀ (α : Type) (a : α), just_log_errors label (Except.ok a) = (some a, [])) ∧
    (just_log_errors label (Except.error e) : Option Unit × List LogRecord).1 = none ∧
    ∃ r : LogRecord,
      (just_log_errors label (Except.error e) : Option Unit × List LogRecord).2 = [r] ∧
      r.logger = EJR_LOGGER_NAME ∧ r.level = LOG_WARNING ∧
      strContains r.msg label ∧ strContains r.msg e.typeName ∧
      strContains r.msg e.message := by
  refine ⟨fun α a => rfl, rfl, _, rfl, rfl, rfl, ?_, ?_, ?_⟩
  · exact ⟨"In context '".data,
      ("': caught " ++ e.typeName ++ "('" ++ e.message ++ "')").data,
      by simp [just_log_errors, String.data_append]⟩
  · exact ⟨("In context '" ++ label ++ "': caught ").data,
      ("('" ++ e.message ++ "')").data,
      by simp [just_log_errors, String.data_append]⟩
  · exact ⟨("In context '" ++ label ++ "': caught " ++ e.typeName ++ "('").data,
      "')".data,
      by simp [just_log_errors, String.data_append]⟩

/-- C1: for a freshly constructed registry client with OIDC
client-credentials auth, the first authenticated operation performs exactly
one token request; a further authenticated operation while the cached token
is not yet expired performs zero token requests; the first authenticated
operation at or after the cached token's expiry performs exactly one more
token request. -/
theorem token_request_caching (user : String) (t0 t1 t2 : Nat)
    (issue : Nat → String × Nat) (server : ApiCall → JVal)
    (h1 : t1 < t0 + (issue t0).2) (h2 : t0 + (issue t0).2 ≤ t2) :
    (list_user_jobs user t0 none issue server).tokenRequests = 1 ∧
    (list_user_jobs user t1 (list_user_jobs user t0 none issue server).cache
        issue server).tokenRequests = 0 ∧
    (list_user_jobs user t2
        (list_user_jobs user t1 (list_user_jobs user t0 none issue server).cache
          issue server).cache issue server).tokenRequests = 1 := by
  simp [list_user_jobs, get_token, h1, Nat.not_lt.mpr h2]

/-- C1 witness: three calls at times 0, 60 and 86400 with a 300-second token
lifetime perform 1, 0 and 1 token requests respectively. -/
theorem token_request_caching_witness :
    (60 < 0 + ((fun _ : Nat => (("tok", 300) : String × Nat)) 0).2 ∧
      0 + ((fun _ : Nat => (("tok", 300) : String × Nat)) 0).2 ≤ 86400) ∧
    ((list_user_jobs "john" 0 none (fun _ => ("tok", 300))
        (fun _ => JVal.null)).tokenRequests = 1 ∧
      (list_user_jobs "john" 60
          (list_user_jobs "john" 0 none (fun _ => ("tok", 300))
            (fun _ => JVal.null)).cache
          (fun _ => ("tok", 300)) (fun _ => JVal.null)).tokenRequests = 0 ∧
      (list_user_jobs "john" 86400
          (list_user_jobs "john" 60
            (list_user_jobs "john" 0 none (fun _ => ("tok", 300))
              (fun _ => JVal.null)).cache
            (fun _ => ("tok", 300)) (fun _ => JVal.null)).cache
          (fun _ => ("tok", 300)) (fun _ => JVal.null)).tokenRequests = 1) :=
  ⟨⟨by decide, by decide⟩,
    token_request_caching "john" 0 60 86400 (fun _ => ("tok", 300))
      (fun _ => JVal.null) (by decide) (by decide)⟩

/-- C2: a retried partial update (here `set_application_id`): if the first
PATCH attempt fails with an HTTP error and the second succeeds, the
operation returns the success result after exactly one retry-delay sleep
and two PATCH calls; if both attempts fail (max attempts = 2), it raises
`EjrHttpError` carrying the last response's status and reason, after one
retry-delay and two PATCH calls; if the first attempt succeeds, it returns
immediately with zero sleeps and one call. -/
theorem update_retry_behaviour (job_id app_id token : String)
    (resps : Nat → HttpResponse) :
    (is2xx (resps 0).status = false → is2xx (resps 1).status = true →
      (update_job job_id (set_application_id app_id) token resps).result =
          .ok (resps 1).body ∧
        (update_job job_id (set_application_id app_id) token resps).requests.length = 2 ∧
        (update_job job_id (set_application_id app_id) token resps).sleeps = 1) ∧
    (is2xx (resps 0).status = false → is2xx (resps 1).status = false →
      (update_job job_id (set_application_id app_id) token resps).result =
          .error (.ejrHttpError (resps 1).status (resps 1).reason) ∧
        (update_job job_id (set_application_id app_id) token resps).requests.length = 2 ∧
        (update_job job_id (set_application_id app_id) token resps).sleeps = 1) ∧
    (is2xx (resps 0).status = true →
      (update_job job_id (set_application_id app_id) token resps).result =
          .ok (resps 0).body ∧
        (update_job job_id (set_application_id app_id) token resps).requests.length = 1 ∧
        (update_job job_id (set_application_id app_id) token resps).sleeps = 0) := by
  unfold update_job EJR_RETRY_MAX_ATTEMPTS
  refine ⟨fun h0 h1 => by simp [with_retry_two, with_retry_one, h0, h1],
    fun h0 h1 => by simp [with_retry_two, with_retry_one, h0, h1],
    fun h0 => by simp [with_retry_two, h0]⟩

/-- A 404 Not Found response of the registry. -/
def respNotFound : HttpResponse := ⟨404, "Not Found", JVal.null⟩

/-- A 200 OK response of the registry. -/
def respSuccess : HttpResponse := ⟨200, "OK", JVal.str "patched"⟩

/-- Responses: first attempt 404, later attempts succeed. -/
def respsFailThenOk (i : Nat) : HttpResponse := if i = 0 then respNotFound else respSuccess

/-- Responses: every attempt 404. -/
def respsAllFail (_ : Nat) : HttpResponse := respNotFound

/-- Responses: every attempt succeeds. -/
def respsAllOk (_ : Nat) : HttpResponse := respSuccess

/-- C2 witness: the three retry scenarios at concrete response sequences. -/
theorem update_retry_behaviour_witness :
    ((update_job "job-123" (set_application_id "app-456") "tok"
        respsFailThenOk).result = .ok (respsFailThenOk 1).body ∧
      (update_job "job-123" (set_application_id "app-456") "tok"
        respsFailThenOk).requests.length = 2 ∧
      (update_job "job-123" (set_application_id "app-456") "tok"
        respsFailThenOk).sleeps = 1) ∧
    ((update_job "job-123" (set_application_id "app-456") "tok"
        respsAllFail).result =
          .error (.ejrHttpError (respsAllFail 1).status (respsAllFail 1).reason) ∧
      (update_job "job-123" (set_application_id "app-456") "tok"
        respsAllFail).requests.length = 2 ∧
      (update_job "job-123" (set_application_id "app-456") "tok"
        respsAllFail).sleeps = 1) ∧
    ((update_job "job-123" (set_application_id "app-456") "tok"
        respsAllOk).result = .ok (respsAllOk 0).body ∧
      (update_job "job-123" (set_application_id "app-456") "tok"
        respsAllOk).requests.length = 1 ∧
      (update_job "job-123" (set_application_id "app-456") "tok"
        respsAllOk).sleeps = 0) :=
  ⟨(update_retry_behaviour "job-123" "app-456" "tok" respsFailThenOk).1
      (by decide) (by decide),
    (update_retry_behaviour "job-123" "app-456" "tok" respsAllFail).2.1
      (by decide) (by decide),
    (update_retry_behaviour "job-123" "app-456" "tok" respsAllOk).2.2 (by decide)⟩

/-- C3 counterexample: at a 204 No Content response — a 2xx success
status — `create_job` nonetheless raises (the registry's expected creation
status is 201, as its tests pin via the 204 error case), refuting "raises
exactly when the response has a non-2xx status". -/
theorem create_job_raises_on_2xx_204 :
    is2xx 204 = true ∧
    raisesEjr (create_job "unittests" [(0 : Fin 16)] 0 "proc" "john" JVal.null
        ⟨204, "No Content", JVal.str "meh"⟩).1 = true :=
  ⟨by decide, by decide⟩

/-- C3 (amended): `create_job` performs exactly one POST attempt regardless
of outcome (no retry), and raises `EjrError`/`EjrHttpError` exactly when the
response status differs from the expected creation status 201 — in
particular also for other 2xx statuses such as 204. -/
theorem create_job_single_attempt (backend : String) (rand : List (Fin 16))
    (now : Nat) (process user_id : String) (job_options : JVal)
    (response : HttpResponse) :
    (create_job backend rand now process user_id job_options response).2 = 1 ∧
    (raisesEjr (create_job backend rand now process user_id job_options
        response).1 = true ↔
      response.status ≠ EJR_CREATE_EXPECTED_STATUS) := by
  unfold create_job raisesEjr
  by_cases hs : response.status = EJR_CREATE_EXPECTED_STATUS <;> simp [hs]

/-- C3 witness: at a 400 Bad Request response, one POST attempt and an
error. -/
theorem create_job_single_attempt_witness :
    (create_job "unittests" [(0 : Fin 16)] 0 "proc" "john" JVal.null
        ⟨400, "Bad Request", JVal.null⟩).2 = 1 ∧
    (raisesEjr (create_job "unittests" [(0 : Fin 16)] 0 "proc" "john" JVal.null
        ⟨400, "Bad Request", JVal.null⟩).1 = true ↔
      (⟨400, "Bad Request", JVal.null⟩ : HttpResponse).status ≠
        EJR_CREATE_EXPECTED_STATUS) :=
  create_job_single_attempt "unittests" [(0 : Fin 16)] 0 "proc" "john" JVal.null
    ⟨400, "Bad Request", JVal.null⟩

/-- C4: a successful `create_job` yields a record whose `job_id` matches
`j-[0-9a-f]+`, whose `status` is `"created"`, and whose `created` and
`updated` are equal, both the call's observation time in the canonical
format `YYYY-MM-DDTHH:MM:SSZ` (second precision, literal `Z`). -/
theorem create_job_success_fields (backend : String) (rand : List (Fin 16))
    (now : Nat) (process user_id : String) (job_options : JVal)
    (reason : String) (body : JVal) (hrand : rand ≠ []) :
    ∃ job : JobEntry,
      (create_job backend rand now process user_id job_options
          ⟨EJR_CREATE_EXPECTED_STATUS, reason, body⟩).1 = .ok job ∧
      matches_job_id_pattern job.job_id = true ∧
      job.status = "created" ∧
      job.created = job.updated ∧
      job.created = rfc3339_datetime now ∧
      matches_ts_pattern job.created = true :=
  ⟨⟨backend, generate_job_id rand, user_id, process, rfc3339_datetime now,
      rfc3339_datetime now, "created", job_options⟩,
    rfl, matches_job_id_generate rand hrand, rfl, rfl, rfl,
    matches_ts_pattern_rfc3339 now⟩

/-- C4 witness: a concrete creation at 2020-01-02T03:04:05Z with a one-digit
random suffix. -/
theorem create_job_success_fields_witness :
    ([(10 : Fin 16)] : List (Fin 16)) ≠ [] ∧
    ∃ job : JobEntry,
      (create_job "unittests" [(10 : Fin 16)] 1577934245 "proc" "john" JVal.null
          ⟨EJR_CREATE_EXPECTED_STATUS, "Created", JVal.null⟩).1 = .ok job ∧
      matches_job_id_pattern job.job_id = true ∧
      job.status = "created" ∧
      job.created = job.updated ∧
      job.created = rfc3339_datetime 1577934245 ∧
      matches_ts_pattern job.created = true :=
  ⟨by decide,
    create_job_success_fields "unittests" [(10 : Fin 16)] 1577934245 "proc" "john"
      JVal.null "Created" JVal.null (by decide)⟩

/-- C8 counterexample: for credentials whose secret happens to equal the
redaction placeholder `***`, the textual representation does contain the
literal secret value, refuting the claim's "never contains" (the
representation is independent of the secret, but its fixed text can
coincide with a degenerate secret). -/
theorem credentials_repr_contains_secret :
    strContains
      (ElasticJobRegistryCredentials.reprStr ⟨"https://oidc.test/", "c123", "***"⟩)
      (ElasticJobRegistryCredentials.client_secret
        ⟨"https://oidc.test/", "c123", "***"⟩) :=
  ⟨("ElasticJobRegistryCredentials(oidc_issuer='https://oidc.test/', client_id='c123', client_secret='").data,
    "')".data, by decide⟩

/-- C8 (amended): credentials built from the same issuer/id/secret triple
via explicit arguments, a configuration mapping, or environment variables
compare equal; the textual representation shows the fixed placeholder in
place of the secret and does not depend on the secret, so two credentials
differing only in secret have identical representations (hence the
representation can contain the secret only when the secret coincides with
other displayed text). -/
theorem credentials_equality_and_redaction (i cid cs cs2 : String)
    (env : List (String × String)) (hi : i ≠ "") (hc : cid ≠ "") (hs : cs ≠ "") :
    ElasticJobRegistryCredentials.get (some i)
        (some [("client_id", cid), ("client_secret", cs)]) env =
      .ok ⟨i, cid, cs⟩ ∧
    ElasticJobRegistryCredentials.get none none
        [(EJR_ENV_ISSUER, i), (EJR_ENV_CLIENT_ID, cid), (EJR_ENV_CLIENT_SECRET, cs)] =
      .ok ⟨i, cid, cs⟩ ∧
    ElasticJobRegistryCredentials.reprStr ⟨i, cid, cs⟩ =
      ElasticJobRegistryCredentials.reprStr ⟨i, cid, cs2⟩ := by
  refine ⟨?_, ?_, rfl⟩ <;>
    simp [ElasticJobRegistryCredentials.get, List.lookup, EJR_ENV_ISSUER,
      EJR_ENV_CLIENT_ID, EJR_ENV_CLIENT_SECRET, hi, hc, hs]

/-- C8 witness: concrete equal credentials from config and environment. -/
theorem credentials_equality_and_redaction_witness :
    (("https://oidc.test/" : String) ≠ "" ∧ ("c456789" : String) ≠ "" ∧
      ("s3cr3t" : String) ≠ "") ∧
    (ElasticJobRegistryCredentials.get (some "https://oidc.test/")
        (some [("client_id", "c456789"), ("client_secret", "s3cr3t")]) [] =
      .ok ⟨"https://oidc.test/", "c456789", "s3cr3t"⟩ ∧
    ElasticJobRegistryCredentials.get none none
        [(EJR_ENV_ISSUER, "https://oidc.test/"), (EJR_ENV_CLIENT_ID, "c456789"),
          (EJR_ENV_CLIENT_SECRET, "s3cr3t")] =
      .ok ⟨"https://oidc.test/", "c456789", "s3cr3t"⟩ ∧
    ElasticJobRegistryCredentials.reprStr ⟨"https://oidc.test/", "c456789", "s3cr3t"⟩ =
      ElasticJobRegistryCredentials.reprStr ⟨"https://oidc.test/", "c456789", "other"⟩) :=
  ⟨⟨by decide, by decide, by decide⟩,
    credentials_equality_and_redaction "https://oidc.test/" "c456789" "s3cr3t" "other"
      [] (by decide) (by decide) (by decide)⟩

/-- C9: `health_check(use_auth=False)` sends a GET to the health endpoint
with no Authorization header at all, performs no token request, and returns
the service's health payload unmodified; `health_check(use_auth=True)` sends
the cached bearer token. -/
theorem health_check_auth_header (now : Nat) (cache : Option CachedToken)
    (issue : Nat → String × Nat) (server : ApiCall → JVal) (t : CachedToken)
    (hfresh : now < t.expires_at) :
    (health_check false now cache issue server).call.authHeader = none ∧
    (health_check false now cache issue server).call.method = "GET" ∧
    (health_check false now cache issue server).call.path = "/health" ∧
    (health_check false now cache issue server).tokenRequests = 0 ∧
    (health_check false now cache issue server).result =
      server ⟨"GET", "/health", none, []⟩ ∧
    (health_check true now (some t) issue server).call.authHeader =
      some ("Bearer " ++ t.access_token) := by
  refine ⟨rfl, rfl, rfl, rfl, rfl, ?_⟩
  simp [health_check, get_token, hfresh]

/-- C9 witness: concrete health checks with and without auth. -/
theorem health_check_auth_header_witness :
    (50 : Nat) < (⟨"tok", 100⟩ : CachedToken).expires_at ∧
    ((health_check false 50 none (fun _ => ("tok2", 300))
        (fun _ => JVal.null)).call.authHeader = none ∧
      (health_check false 50 none (fun _ => ("tok2", 300))
        (fun _ => JVal.null)).call.method = "GET" ∧
      (health_check false 50 none (fun _ => ("tok2", 300))
        (fun _ => JVal.null)).call.path = "/health" ∧
      (health_check false 50 none (fun _ => ("tok2", 300))
        (fun _ => JVal.null)).tokenRequests = 0 ∧
      (health_check false 50 none (fun _ => ("tok2", 300))
        (fun _ => JVal.null)).result =
        (fun _ => JVal.null) (⟨"GET", "/health", none, []⟩ : ApiCall) ∧
      (health_check true 50 (some ⟨"tok", 100⟩) (fun _ => ("tok2", 300))
        (fun _ => JVal.null)).call.authHeader = some ("Bearer " ++ "tok")) :=
  ⟨by decide,
    health_check_auth_header 50 none (fun _ => ("tok2", 300)) (fun _ => JVal.null)
      ⟨"tok", 100⟩ (by decide)⟩

/-- C10: token freshness is judged only by the locally stored expiry: while
`now < expires_at` an authenticated operation sends the cached token with
zero token requests and surfaces the server's response to that token as-is,
for every server — in particular one on which the issuer has already
invalidated the token. -/
theorem stale_token_still_sent (now : Nat) (t : CachedToken)
    (issue : Nat → String × Nat) (respond : Option String → JVal)
    (hfresh : now < t.expires_at) :
    health_check true now (some t) issue (fun c => respond c.authHeader) =
      ⟨respond (some ("Bearer " ++ t.access_token)), some t, 0,
        ⟨"GET", "/health", some ("Bearer " ++ t.access_token), []⟩⟩ := by
  simp [health_check, get_token, hfresh]

/-- C10 witness: the issuer's current token is `tok2`, the cached token
`tok` is no longer accepted server-side, yet within its local validity the
client sends the stale `tok` without refreshing and surfaces the server's
rejection payload as-is. -/
theorem stale_token_still_sent_witness :
    (50 : Nat) < (⟨"tok", 100⟩ : CachedToken).expires_at ∧
    health_check true 50 (some ⟨"tok", 100⟩) (fun _ => ("tok2", 300))
        (fun c =>
          (fun h => if h = some ("Bearer " ++ "tok2") then JVal.str "up-ok"
            else JVal.str "down-expired") c.authHeader) =
      ⟨JVal.str "down-expired", some ⟨"tok", 100⟩, 0,
        ⟨"GET", "/health", some ("Bearer " ++ "tok"), []⟩⟩ :=
  ⟨by decide,
    (stale_token_still_sent 50 ⟨"tok", 100⟩ (fun _ => ("tok2", 300))
        (fun h => if h = some ("Bearer " ++ "tok2") then JVal.str "up-ok"
          else JVal.str "down-expired") (by decide)).trans (by decide)⟩

/-- C6 witness: a concrete clearing of the dependency fields against a
registry that accepts the first PATCH. -/
theorem remove_dependencies_sends_exact_nulls_witness :
    is2xx (respsAllOk 0).status = true ∧
    ((update_job "job-123" remove_dependencies_payload "tok" respsAllOk).requests =
      [⟨"PATCH", "/jobs/" ++ "job-123", some ("Bearer " ++ "tok"),
        [("dependencies", JVal.null), ("dependency_status", JVal.null)]⟩] ∧
    remove_dependencies_payload.lookup "dependencies" = some JVal.null ∧
    remove_dependencies_payload.lookup "dependency_status" = some JVal.null ∧
    remove_dependencies_payload.length = 2) :=
  ⟨by decide,
    remove_dependencies_sends_exact_nulls "job-123" "tok" respsAllOk (by decide)⟩
